import Mathlib

/-!
Shallow embedding of the annotation subsystem of `reader3`
(`src/annotations.py` and the annotation endpoints of `src/server.py`).

Modelling choices:
- JSON numeric coordinate values inside `rect`/`rects` are never computed
  with by the program (they are carried opaquely), so they are modelled by
  `Int`.
- A raw JSON object field that the code tests with `'key' in data` is
  modelled by `Option (Option α)`: `none` is key-absent, `some none` is the
  key present with JSON `null`, `some (some v)` is the key present with a
  value.  Fields for which the code never distinguishes key-absent from
  `null` are collapsed to a single `Option`.
- `uuid.uuid4()` and `datetime.utcnow()` (the pydantic default factories for
  `id` and `created_at`) are effects; they are modelled by explicit `Fresh`
  parameters, one per record construction (`gen : Nat → Fresh` for the
  construction of the i-th record of a loaded file).
- The per-book `annotations.json` file and its directory are modelled by
  `DiskState`; a failing `open(path, "w")`/`json.dump` is modelled by a
  `writeOk : Bool` parameter, with `False` making the write raise.
-/

namespace Reader3

/-- Coordinate entries of `rect`/`rects` (`List[float]` in the source); the
program never computes with them, so the numeric type is opaque. -/
abbrev Coord := Int

/-- A single bounding box, `rect: Optional[List[float]]`. -/
abbrev Rect := List Coord

/-- A raw JSON object field distinguishing key-absent (`none`), key present
with `null` (`some none`), and key present with a value (`some (some v)`). -/
abbrev RawField (α : Type) := Option (Option α)

/-- Raw (pre-validation) input to `AnnotationTarget`: the dict seen by the
`mode='before'` validator `migrate_rect_to_rects`. -/
structure RawTarget where
  chapter_index : Option Int := none
  cfi : Option String := none
  quote : Option String := none
  page_num : Option Int := none
  rect : RawField Rect := none
  rects : RawField (List Rect) := none
deriving Repr, DecidableEq

/-- Embeds `AnnotationTarget.migrate_rect_to_rects` (`src/annotations.py:22-29`):
`if 'rect' in data and data['rect'] and 'rects' not in data:
   data['rects'] = [data['rect']]`.
`data['rect']` must be truthy: present, not `null`, and not the empty list. -/
def migrate_rect_to_rects (d : RawTarget) : RawTarget :=
  match d.rects, d.rect with
  | none, some (some r) => if r.isEmpty then d else { d with rects := some (some [r]) }
  | _, _ => d

/-- Validated `AnnotationTarget` (`src/annotations.py:10-18`). -/
structure AnnotationTarget where
  chapter_index : Int
  cfi : Option String := none
  quote : Option String := none
  page_num : Option Int := none
  rect : Option Rect := none
  rects : Option (List Rect) := none
deriving Repr, DecidableEq

/-- Pydantic validation of `AnnotationTarget`: the before-validator runs
first, then `chapter_index` is required and the optional fields map `null`
and key-absent both to `None`. -/
def parseTarget (raw : RawTarget) : Except String AnnotationTarget :=
  let d := migrate_rect_to_rects raw
  match d.chapter_index with
  | none => .error "chapter_index: field required"
  | some ci =>
      .ok { chapter_index := ci, cfi := d.cfi, quote := d.quote,
            page_num := d.page_num, rect := d.rect.join, rects := d.rects.join }

/-- Embeds `model_dump(mode='json')` of a validated target: every key is emitted,
`None` becoming `null`. -/
def serializeTarget (t : AnnotationTarget) : RawTarget :=
  { chapter_index := some t.chapter_index, cfi := t.cfi, quote := t.quote,
    page_num := t.page_num, rect := some t.rect, rects := some t.rects }

/-- Embeds `ChatMessage` (`src/annotations.py:31-33`). -/
structure ChatMessage where
  role : String
  content : String
deriving Repr, DecidableEq

/-- Raw input to `ChatMessage`: both fields are required strings. -/
structure RawChatMessage where
  role : Option String := none
  content : Option String := none
deriving Repr, DecidableEq

def parseChatMessage (m : RawChatMessage) : Except String ChatMessage :=
  match m.role, m.content with
  | some r, some c => .ok ⟨r, c⟩
  | none, _ => .error "role: field required"
  | _, none => .error "content: field required"

def serializeChatMessage (m : ChatMessage) : RawChatMessage :=
  { role := some m.role, content := some m.content }

def parseChatMessages : List RawChatMessage → Except String (List ChatMessage)
  | [] => .ok []
  | m :: ms =>
      match parseChatMessage m, parseChatMessages ms with
      | .ok x, .ok xs => .ok (x :: xs)
      | .error e, _ => .error e
      | _, .error e => .error e

/-- Embeds `AnnotationContent` (`src/annotations.py:35-38`). -/
structure AnnotationContent where
  text : Option String := none
  color : Option String := none
  chat_messages : Option (List ChatMessage) := none
deriving Repr, DecidableEq

/-- Raw input to `AnnotationContent`; all fields optional (`null` and
key-absent are not distinguished by any code path, so they are collapsed). -/
structure RawContent where
  text : Option String := none
  color : Option String := none
  chat_messages : Option (List RawChatMessage) := none
deriving Repr, DecidableEq

def parseContent (c : RawContent) : Except String AnnotationContent :=
  match c.chat_messages with
  | none => .ok { text := c.text, color := c.color, chat_messages := none }
  | some ms =>
      match parseChatMessages ms with
      | .ok xs => .ok { text := c.text, color := c.color, chat_messages := some xs }
      | .error e => .error e

def serializeContent (c : AnnotationContent) : RawContent :=
  { text := c.text, color := c.color,
    chat_messages := c.chat_messages.map (fun ms => ms.map serializeChatMessage) }

/-- Embeds `type: Literal['highlight', 'note', 'chat_thread']`. -/
inductive AnnType where
  | highlight
  | note
  | chat_thread
deriving Repr, DecidableEq

def AnnType.toJson : AnnType → String
  | .highlight => "highlight"
  | .note => "note"
  | .chat_thread => "chat_thread"

def parseAnnType (s : String) : Except String AnnType :=
  if s = "highlight" then .ok .highlight
  else if s = "note" then .ok .note
  else if s = "chat_thread" then .ok .chat_thread
  else .error "type: unexpected value"

/-- Validated `Annotation` (`src/annotations.py:40-45`). -/
structure Annotation where
  id : String
  created_at : String
  type : AnnType
  target : AnnotationTarget
  content : AnnotationContent
deriving Repr, DecidableEq

/-- Raw input to `Annotation` (a create/update request body, or one element
of the on-disk JSON array). -/
structure RawAnnotation where
  id : Option String := none
  created_at : Option String := none
  type : Option String := none
  target : Option RawTarget := none
  content : Option RawContent := none
deriving Repr, DecidableEq

/-- The pydantic default factories `uuid.uuid4()` / `datetime.utcnow()`
for one record construction, passed in explicitly. -/
structure Fresh where
  newId : String
  now : String
deriving Repr, DecidableEq

/-- Pydantic validation of `Annotation`: `type`, `target`, `content` are
required; `id` and `created_at` default to the fresh server-side values
when (and only when) the input omits them. -/
def parseAnnotation (fresh : Fresh) (raw : RawAnnotation) : Except String Annotation :=
  match raw.type, raw.target, raw.content with
  | some tys, some tgtRaw, some ctRaw =>
      (match parseAnnType tys, parseTarget tgtRaw, parseContent ctRaw with
       | .ok ty, .ok tgt, .ok ct =>
           .ok { id := raw.id.getD fresh.newId, created_at := raw.created_at.getD fresh.now,
                 type := ty, target := tgt, content := ct }
       | .error e, _, _ => .error e
       | _, .error e, _ => .error e
       | _, _, .error e => .error e)
  | none, _, _ => .error "type: field required"
  | _, none, _ => .error "target: field required"
  | _, _, none => .error "content: field required"

/-- Embeds `model_dump(mode='json')` of a validated annotation. -/
def serializeAnnotation (a : Annotation) : RawAnnotation :=
  { id := some a.id, created_at := some a.created_at, type := some a.type.toJson,
    target := some (serializeTarget a.target), content := some (serializeContent a.content) }

-- --- Storage Logic (`src/annotations.py:47-116`) ---

/-- The content of one book's `annotations.json`: either not decodable as a
JSON array of objects (`malformed`), or a list of raw record objects. -/
inductive FileData where
  | malformed
  | records (items : List RawAnnotation)
deriving Repr, DecidableEq

/-- The filesystem state relevant to one book: whether the book's storage
directory exists, and the content of its `annotations.json` (`none` when the
file does not exist). -/
structure DiskState where
  dirExists : Bool
  file : Option FileData
deriving Repr, DecidableEq

/-- Embeds `[Annotation(**item) for item in raw_data]`: validates the records one
by one, failing on the first invalid one; `gen i` supplies the default
factories for the record at index `i`. -/
def parseAll (gen : Nat → Fresh) : List RawAnnotation → Nat → Except String (List Annotation)
  | [], _ => .ok []
  | r :: rs, i =>
      match parseAnnotation (gen i) r, parseAll gen rs (i + 1) with
      | .ok a, .ok as_ => .ok (a :: as_)
      | .error e, _ => .error e
      | _, .error e => .error e

/-- Embeds `load_annotations` (`src/annotations.py:52-63`): empty list when the
file does not exist; on a JSON decode error or any record failing
validation, the exception is caught, logged, and the empty list returned. -/
def load_annotations (gen : Nat → Fresh) (disk : DiskState) : List Annotation :=
  match disk.file with
  | none => []
  | some .malformed => []
  | some (.records items) =>
      match parseAll gen items 0 with
      | .ok as_ => as_
      | .error _ => []

/-- Embeds `json.dump([a.model_dump(mode='json') for a in annotations], f)`. -/
def serializeAll (annotations : List Annotation) : FileData :=
  .records (annotations.map serializeAnnotation)

/-- Embeds `save_annotation_to_disk` (`src/annotations.py:65-79`): load existing,
append, `os.makedirs(..., exist_ok=True)`, write the whole list back; a
write error is printed and re-raised. -/
def save_annotation_to_disk (gen : Nat → Fresh) (disk : DiskState)
    ( new_annotation : Annotation) (writeOk : Bool) : Except String DiskState :=
  let annotations := load_annotations gen disk
  let annotations := annotations ++ [ new_annotation]
  if writeOk then
    .ok { dirExists := true, file := some (serializeAll annotations) }
  else
    .error "write error"

/-- Embeds `delete_annotation_from_disk` (`src/annotations.py:81-95`): filter out
the id; if the length did not decrease return `False` without touching the
file, otherwise rewrite the file with the filtered list and return `True`;
a write error is re-raised. -/
def delete_annotation_from_disk (gen : Nat → Fresh) (disk : DiskState)
    (annotation_id : String) (writeOk : Bool) : Except String (Bool × DiskState) :=
  let annotations := load_annotations gen disk
  let filtered := annotations.filter (fun a => a.id ≠ annotation_id)
  if filtered.length = annotations.length then
    .ok (false, disk)
  else if writeOk then
    .ok (true, { disk with file := some (serializeAll filtered) })
  else
    .error "write error"

/-- The `for i, a in enumerate(annotations): if a.id == ...: annotations[i] = ...;
break` loop of `update_annotation_in_disk`: replace the first record whose
id matches, reporting whether one was found. -/
def replaceFirst (updated : Annotation) : List Annotation → List Annotation × Bool
  | [] => ([], false)
  | a :: rest =>
      if a.id = updated.id then (updated :: rest, true)
      else
        let r := replaceFirst updated rest
        (a :: r.1, r.2)

/-- Embeds `update_annotation_in_disk` (`src/annotations.py:97-116`): replace the
first record with a matching id; `False` and no write when none matches,
otherwise rewrite the whole file and return `True`; a write error is
re-raised. -/
def update_annotation_in_disk (gen : Nat → Fresh) (disk : DiskState)
    ( updated_annotation : Annotation) (writeOk : Bool) : Except String (Bool × DiskState) :=
  let annotations := load_annotations gen disk
  let r := replaceFirst updated_annotation annotations
  if r.2 then
    if writeOk then
      .ok (true, { disk with file := some (serializeAll r.1) })
    else
      .error "write error"
  else
    .ok (false, disk)

-- --- HTTP resource layer (`src/server.py:158-229`) ---

/-- Outcome of `POST /api/annotations/{book_id}`: the 200 response carries
the persisted annotation's id (and we thread the resulting disk state);
`invalid` is FastAPI's request-body validation rejection; `serverError` is
the 500 raised on a storage failure (post-failure disk state unspecified). -/
inductive CreateResult where
  | ok (id : String) (disk : DiskState)
  | invalid (detail : String)
  | serverError (detail : String)
deriving Repr, DecidableEq

/-- Embeds `create_annotation` (`src/server.py:162-170`): FastAPI validates the
body into an `Annotation` (with server-side default factories `fresh`),
`save_annotation_to_disk` appends it, and the response echoes
`annotation.id`. -/
def create_annotation (gen : Nat → Fresh) (fresh : Fresh) (disk : DiskState)
    (body : RawAnnotation) (writeOk : Bool) : CreateResult :=
  match parseAnnotation fresh body with
  | .error e => .invalid e
  | .ok annotation =>
      match save_annotation_to_disk gen disk annotation writeOk with
      | .ok disk2 => .ok annotation.id disk2
      | .error e => .serverError e

/-- Outcome of `POST /api/annotations/{book_id}/{annotation_id}/chat`
(the resulting disk state is threaded; `notFound` is the 404, which
performs no write; `serverError` is the 500 on a storage failure). -/
inductive ChatResult where
  | ok (disk : DiskState)
  | notFound (disk : DiskState)
  | serverError (detail : String)
deriving Repr, DecidableEq

/-- The in-memory mutation `append_annotation_chat` performs on the found
annotation (`src/server.py:214-223`): initialize `chat_messages` if `None`,
append the message, and promote type `highlight` to `chat_thread`. -/
def chatStep (a : Annotation) (message : ChatMessage) : Annotation :=
  let msgs := match a.content.chat_messages with
    | none => []
    | some ms => ms
  let a1 := { a with content := { a.content with chat_messages := some (msgs ++ [message]) } }
  if a1.type = .highlight then { a1 with type := .chat_thread } else a1

/-- Embeds `append_annotation_chat` (`src/server.py:198-229`): load, locate by id
(first match), 404 if absent; otherwise apply `chatStep` and persist via
`update_annotation_in_disk` (whose boolean result the handler ignores).
`gen1` serves the handler's own load, `gen2` the reload inside
`update_annotation_in_disk`. -/
def append_annotation_chat (gen1 gen2 : Nat → Fresh) (disk : DiskState)
    (annotation_id : String) (message : ChatMessage) (writeOk : Bool) : ChatResult :=
  let annotations := load_annotations gen1 disk
  match annotations.find? (fun a => a.id = annotation_id) with
  | none => .notFound disk
  | some target_annotation =>
      match update_annotation_in_disk gen2 disk (chatStep target_annotation message) writeOk with
      | .ok r => .ok r.2
      | .error e => .serverError e

-- --- Concrete fixtures (used by witness and counterexample theorems) ---

/-- A fixed pair of server-side default-factory values. -/
def fresh0 : Fresh := { newId := "server-id", now := "2024-01-01T00:00:00" }

/-- A constant default-factory source for loads. -/
def gen0 : Nat → Fresh := fun _ => fresh0

def target0 : AnnotationTarget := { chapter_index := 0 }

/-- A stored highlight. -/
def ann0 : Annotation :=
  { id := "a0", created_at := "t0", type := AnnType.highlight, target := target0,
    content := { color := some "yellow" } }

/-- A replacement record bearing the same id as `ann0`. -/
def ann1 : Annotation :=
  { id := "a0", created_at := "t1", type := AnnType.note, target := target0,
    content := { text := some "Edited", color := some "blue" } }

/-- A book directory whose annotations.json holds exactly `ann0`. -/
def disk0 : DiskState := { dirExists := true, file := some (serializeAll [ann0]) }

/-- A book directory whose annotations.json holds `ann0` twice (duplicate ids). -/
def dupDisk : DiskState := { dirExists := true, file := some (serializeAll [ann0, ann0]) }

/-- A book directory whose annotations.json holds one record that fails
validation (all required fields missing). -/
def badDisk : DiskState := { dirExists := true, file := some (FileData.records [{}]) }

def msg0 : ChatMessage := { role := "user", content := "Explain" }

/-- A create request body that omits `id` and `created_at`. -/
def body0 : RawAnnotation :=
  { type := some "note", target := some { chapter_index := some 1 }, content := some {} }

/-- The record the server builds from `body0` under the defaults `fresh0`. -/
def annW : Annotation :=
  { id := "server-id", created_at := "2024-01-01T00:00:00", type := AnnType.note,
    target := { chapter_index := 1 }, content := {} }

/-- A create request body that supplies its own `id`. -/
def c1Body : RawAnnotation :=
  { id := some "client-id", type := some "highlight",
    target := some { chapter_index := some 0 }, content := some {} }

/-- The record the server builds from `c1Body`: the client id is kept. -/
def c1Ann : Annotation :=
  { id := "client-id", created_at := "2024-01-01T00:00:00", type := AnnType.highlight,
    target := target0, content := {} }

-- --- Store-level helper lemmas ---

-- Round-trip lemmas: parsing the serialization of a validated value gives
-- the value back (used whenever an operation reloads a file it wrote).

theorem parseChatMessages_serialize (ms : List ChatMessage) :
    parseChatMessages (ms.map serializeChatMessage) = .ok ms := by
  induction ms with
  | nil => rfl
  | cons m ms ih => simp [parseChatMessages, parseChatMessage, serializeChatMessage, ih]

theorem parseContent_serialize (c : AnnotationContent) :
    parseContent (serializeContent c) = .ok c := by
  obtain ⟨t, col, cm⟩ := c
  cases cm <;> simp [parseContent, serializeContent, parseChatMessages_serialize]

theorem parseTarget_serialize (t : AnnotationTarget) :
    parseTarget (serializeTarget t) = .ok t := rfl

theorem parseAnnType_toJson (ty : AnnType) : parseAnnType ty.toJson = .ok ty := by
  cases ty <;> rfl

theorem parseAnnotation_serialize (fresh : Fresh) (a : Annotation) :
    parseAnnotation fresh ( serializeAnnotation a) = .ok a := by
  simp [ parseAnnotation, serializeAnnotation, parseAnnType_toJson,
        parseTarget_serialize, parseContent_serialize]

theorem parseAll_serialize (gen : Nat → Fresh) (l : List Annotation) (i : Nat) :
    parseAll gen (l.map serializeAnnotation) i = .ok l := by
  induction l generalizing i with
  | nil => rfl
  | cons a l ih => simp [parseAll, parseAnnotation_serialize, ih]

/-- Loading a file that holds the serialization of a list of validated
annotations yields that list back, whatever the default factories. -/
theorem load_serializeAll (gen : Nat → Fresh) (disk : DiskState) (l : List Annotation)
    (hdisk : disk.file = some (serializeAll l)) :
    load_annotations gen disk = l := by
  unfold load_annotations
  rw [hdisk]
  simp [serializeAll, parseAll_serialize]

theorem replaceFirst_of_notMem (u : Annotation) (l : List Annotation)
    (h : ∀ a ∈ l, a.id ≠ u.id) : replaceFirst u l = (l, false) := by
  induction l with
  | nil => rfl
  | cons a l ih =>
      have ha : a.id ≠ u.id := h a (by simp)
      simp [replaceFirst, ha, ih (fun x hx => h x (by simp [hx]))]

theorem replaceFirst_first_match (u x : Annotation) (l1 l2 : List Annotation)
    (hx : x.id = u.id) (h1 : ∀ y ∈ l1, y.id ≠ u.id) :
    replaceFirst u (l1 ++ x :: l2) = (l1 ++ u :: l2, true) := by
  induction l1 with
  | nil => simp [replaceFirst, hx]
  | cons y l1 ih =>
      have hy : y.id ≠ u.id := h1 y (by simp)
      simp [replaceFirst, hy, ih (fun z hz => h1 z (by simp [hz]))]

theorem filter_eq_self_of_none_matches (l : List Annotation) (aid : String)
    (h : ∀ a ∈ l, a.id ≠ aid) :
    l.filter (fun a => a.id ≠ aid) = l := by
  rw [List.filter_eq_self]
  intro a ha
  simpa using h a ha

theorem filter_length_lt_of_mem (l : List Annotation) (aid : String)
    (h : ∃ a ∈ l, a.id = aid) :
    (l.filter (fun a => a.id ≠ aid)).length < l.length := by
  rw [List.length_filter_lt_length_iff_exists]
  obtain ⟨a, ha, haid⟩ := h
  exact ⟨a, ha, by simp [haid]⟩

/-- Pydantic fills `id`/`created_at` from the default factories exactly when
the input omits them. -/
theorem parseAnnotation_defaults (fresh : Fresh) (raw : RawAnnotation) (a : Annotation)
    (h : parseAnnotation fresh raw = .ok a) :
    a.id = raw.id.getD fresh.newId ∧ a.created_at = raw.created_at.getD fresh.now := by
  unfold parseAnnotation at h
  split at h
  · split at h
    · injection h with h2
      subst h2
      exact ⟨rfl, rfl⟩
    · simp at h
    · simp at h
    · simp at h
  · simp at h
  · simp at h
  · simp at h

/-- A successful first-match search splits the list around the found
element, with no earlier element matching. -/
theorem find?_id_split (l : List Annotation) (aid : String) (a : Annotation)
    (h : l.find? (fun x => x.id = aid) = some a) :
    a.id = aid ∧ ∃ l1 l2, l = l1 ++ a :: l2 ∧ ∀ y ∈ l1, y.id ≠ aid := by
  induction l with
  | nil => simp [List.find?] at h
  | cons b l ih =>
      by_cases hb : b.id = aid
      · rw [List.find?_cons_of_pos _ (by simpa using hb)] at h
        injection h with h2
        subst h2
        exact ⟨hb, [], l, rfl, by simp⟩
      · rw [List.find?_cons_of_neg _ (by simpa using hb)] at h
        obtain ⟨ha, l1, l2, heq, hl1⟩ := ih h
        refine ⟨ha, b :: l1, l2, by rw [heq]; rfl, ?_⟩
        intro y hy
        rcases List.mem_cons.mp hy with rfl | hy2
        · exact hb
        · exact hl1 y hy2

/-- Field-level description of the chat-append mutation. -/
theorem chatStep_spec (a : Annotation) (m : ChatMessage) :
    (chatStep a m).id = a.id ∧
    (chatStep a m).created_at = a.created_at ∧
    (chatStep a m).target = a.target ∧
    (chatStep a m).content.text = a.content.text ∧
    (chatStep a m).content.color = a.content.color ∧
    (chatStep a m).content.chat_messages = some (a.content.chat_messages.getD [] ++ [m]) ∧
    ((chatStep a m).type = .chat_thread ↔ a.type = .highlight ∨ a.type = .chat_thread) ∧
    (a.type = .note → (chatStep a m).type = .note) ∧
    (a.type = .chat_thread → (chatStep a m).type = .chat_thread) ∧
    (a.type = .highlight → (chatStep a m).type = .chat_thread) := by
  obtain ⟨i, ca, ty, tg, ct⟩ := a
  obtain ⟨tx, col, cm⟩ := ct
  cases ty <;> cases cm <;> simp [chatStep]

/-- A successful append rewrites the file with the old records followed by
the new one, having created the directory. -/
theorem save_ok (gen : Nat → Fresh) (disk : DiskState) (l : List Annotation) (a : Annotation)
    (hdisk : disk.file = some (serializeAll l)) :
    save_annotation_to_disk gen disk a true =
      .ok { dirExists := true, file := some (serializeAll (l ++ [a])) } := by
  simp [save_annotation_to_disk, load_serializeAll gen disk l hdisk]

/-- An update with no matching id reports false and leaves the disk alone. -/
theorem update_notFound (gen : Nat → Fresh) (disk : DiskState) (l : List Annotation)
    (u : Annotation) (writeOk : Bool) (hdisk : disk.file = some (serializeAll l))
    (h : ∀ a ∈ l, a.id ≠ u.id) :
    update_annotation_in_disk gen disk u writeOk = .ok (false, disk) := by
  simp [update_annotation_in_disk, load_serializeAll gen disk l hdisk,
        replaceFirst_of_notMem u l h]

/-- An update whose id first matches at the split point replaces exactly
that record and rewrites the file. -/
theorem update_found (gen : Nat → Fresh) (disk : DiskState) (l1 l2 : List Annotation)
    (x u : Annotation) (hdisk : disk.file = some (serializeAll (l1 ++ x :: l2)))
    (hx : x.id = u.id) (h1 : ∀ y ∈ l1, y.id ≠ u.id) :
    update_annotation_in_disk gen disk u true =
      .ok (true, { disk with file := some (serializeAll (l1 ++ u :: l2)) }) := by
  simp [update_annotation_in_disk, load_serializeAll gen disk _ hdisk,
        replaceFirst_first_match u x l1 l2 hx h1]

/-- A delete with no matching id reports false and leaves the disk alone. -/
theorem delete_notFound (gen : Nat → Fresh) (disk : DiskState) (l : List Annotation)
    (aid : String) (writeOk : Bool) (hdisk : disk.file = some (serializeAll l))
    (h : ∀ a ∈ l, a.id ≠ aid) :
    delete_annotation_from_disk gen disk aid writeOk = .ok (false, disk) := by
  simp only [delete_annotation_from_disk, load_serializeAll gen disk l hdisk]
  rw [filter_eq_self_of_none_matches l aid h]
  simp

/-- A delete with a matching id rewrites the file with every record of that
id removed. -/
theorem delete_found (gen : Nat → Fresh) (disk : DiskState) (l : List Annotation)
    (aid : String) (hdisk : disk.file = some (serializeAll l))
    (h : ∃ a ∈ l, a.id = aid) :
    delete_annotation_from_disk gen disk aid true =
      .ok (true, { disk with file := some (serializeAll (l.filter (fun a => a.id ≠ aid))) }) := by
  have hne : (l.filter (fun a => a.id ≠ aid)).length ≠ l.length :=
    Nat.ne_of_lt (filter_length_lt_of_mem l aid h)
  simp only [delete_annotation_from_disk, load_serializeAll gen disk l hdisk]
  rw [if_neg hne]
  simp

/-- Normalization is applied at most once: a second pass over an already
migrated raw target changes nothing. -/
theorem migrate_idem (d : RawTarget) :
    migrate_rect_to_rects (migrate_rect_to_rects d) = migrate_rect_to_rects d := by
  obtain ⟨ci, cf, q, pn, rc, rs⟩ := d
  cases rs with
  | some v => rfl
  | none =>
      cases rc with
      | none => rfl
      | some rv =>
          cases rv with
          | none => rfl
          | some r =>
              cases r with
              | nil => rfl
              | cons c cs => rfl

-- --- Claim theorems ---

/-- C1 (amended): on POST /api/annotations/\x7bbookId\x7d, `id` and
`created_at` are assigned server-side only when the request body omits
them; a body-supplied `id` is kept: it is used for the persisted record and
echoed in the response, rather than being replaced by a fresh
server-generated one. -/
theorem C1_create_id_from_body (gen : Nat → Fresh) (fresh : Fresh) (disk : DiskState)
    (l : List Annotation) (body : RawAnnotation) (a : Annotation)
    (hdisk : disk.file = some (serializeAll l))
    (hparse : parseAnnotation fresh body = .ok a) :
    a.id = body.id.getD fresh.newId ∧
    a.created_at = body.created_at.getD fresh.now ∧
    create_annotation gen fresh disk body true =
      .ok (body.id.getD fresh.newId)
        { dirExists := true, file := some (serializeAll (l ++ [a])) } := by
  obtain ⟨hid, hca⟩ := parseAnnotation_defaults fresh body a hparse
  refine ⟨hid, hca, ?_⟩
  simp [ create_annotation, hparse, save_ok gen disk l a hdisk, hid]

/-- C1 witness: a body omitting `id`/`created_at` gets the server-generated
values. -/
theorem C1_create_id_from_body_witness :
    annW.id = body0.id.getD fresh0.newId ∧
    annW.created_at = body0.created_at.getD fresh0.now ∧
    create_annotation gen0 fresh0 disk0 body0 true =
      .ok (body0.id.getD fresh0.newId)
        { dirExists := true, file := some (serializeAll ([ann0] ++ [annW])) } :=
  C1_create_id_from_body gen0 fresh0 disk0 [ann0] body0 annW rfl rfl

/-- C1 counterexample: a create request body supplying `id: "client-id"` is
persisted and answered with that client id, which differs from the fresh
server-generated id `"server-id"` — the client-supplied id is not ignored. -/
theorem C1_counterexample :
    create_annotation gen0 fresh0 disk0 c1Body true =
      .ok "client-id" { dirExists := true, file := some (serializeAll [ann0, c1Ann]) } ∧
    c1Body.id = some "client-id" ∧
    c1Ann.id = "client-id" ∧
    fresh0.newId = "server-id" ∧
    ("client-id" : String) ≠ "server-id" := by
  refine ⟨rfl, rfl, rfl, rfl, ?_⟩
  decide

/-- C3 (amended): if the raw input supplies a Python-truthy `rect` (present,
not null, not the empty list) and no `rects` key, normalization yields
`rects = [rect]` with `rect` kept verbatim; whenever the `rects` key is
present, normalization changes nothing (the supplied `rects` wins and
`rect` is inert); normalization is idempotent and runs before field
validation. -/
theorem C3_migration_spec (d : RawTarget) :
    (∀ r, d.rect = some (some r) → r ≠ [] → d.rects = none →
      migrate_rect_to_rects d = { d with rects := some (some [r]) }) ∧
    (∀ v, d.rects = some v → migrate_rect_to_rects d = d) ∧
    migrate_rect_to_rects (migrate_rect_to_rects d) = migrate_rect_to_rects d ∧
    parseTarget d = parseTarget (migrate_rect_to_rects d) := by
  refine ⟨?_, ?_, migrate_idem d, ?_⟩
  · intro r hr hne hrs
    have hr2 : r.isEmpty = false := by
      cases r with
      | nil => exact absurd rfl hne
      | cons c cs => rfl
    obtain ⟨ci, cf, q, pn, rc, rs⟩ := d
    simp only at hr hrs
    subst hr
    subst hrs
    simp [migrate_rect_to_rects, hr2]
  · intro v hv
    obtain ⟨ci, cf, q, pn, rc, rs⟩ := d
    simp only at hv
    subst hv
    rfl
  · unfold parseTarget
    rw [migrate_idem d]

/-- C3 witness: a truthy legacy `rect` with no `rects` key is migrated to
a one-element `rects`. -/
theorem C3_migration_spec_witness :
    migrate_rect_to_rects
        { chapter_index := some 0, rect := some (some [1, 2, 3, 4]), rects := none } =
      { chapter_index := some 0, rect := some (some [1, 2, 3, 4]),
        rects := some (some [[1, 2, 3, 4]]) } :=
  (C3_migration_spec
      { chapter_index := some 0, rect := some (some [1, 2, 3, 4]), rects := none }).1
    [1, 2, 3, 4] rfl (by decide) rfl

/-- C3 counterexample: the raw target `\x7bchapter_index: 0, rect: []\x7d`
supplies `rect` but not `rects`, yet validation leaves `rects` as `None`
(the migration additionally requires `data['rect']` to be truthy, and the
empty list is falsy), not `[[]]` as the claim requires. -/
theorem C3_counterexample :
    parseTarget { chapter_index := some 0, rect := some (some []), rects := none } =
      .ok { chapter_index := 0, cfi := none, quote := none, page_num := none,
            rect := some [], rects := none } ∧
    (none : Option (List Rect)) ≠ some [[]] := by
  refine ⟨rfl, ?_⟩
  decide

/-- C4: loadAll is fail-soft: a missing file, an undecodable file, and a
file with any record failing validation all yield the empty list instead of
an error. -/
theorem C4_load_fail_soft (gen : Nat → Fresh) (disk : DiskState) :
    (disk.file = none → load_annotations gen disk = []) ∧
    (disk.file = some FileData.malformed → load_annotations gen disk = []) ∧
    (∀ items e, disk.file = some (FileData.records items) →
      parseAll gen items 0 = .error e → load_annotations gen disk = []) := by
  refine ⟨?_, ?_, ?_⟩
  · intro h
    simp [load_annotations, h]
  · intro h
    simp [load_annotations, h]
  · intro items e h hp
    simp [load_annotations, h, hp]

/-- C4 witness: a file holding one record that fails schema validation
loads as the empty collection. -/
theorem C4_load_fail_soft_witness : load_annotations gen0 badDisk = [] :=
  (C4_load_fail_soft gen0 badDisk).2.2 [{}] "type: field required" rfl rfl

/-- C2: appending a chat message to a stored collection: when the id is
found (first match `a`), the handler succeeds, the stored collection
becomes the old one with exactly that record replaced by `chatStep a m`,
and `chatStep a m` has `chat_messages` initialized-if-null with `m`
appended at the end after all earlier messages, type promoted to
`chat_thread` exactly when it was `highlight` (`note` and `chat_thread`
unchanged), and every other field unchanged; when the id is absent the
handler reports not-found and the collection is unchanged. -/
theorem C2_append_chat_spec (gen1 gen2 gen3 : Nat → Fresh) (disk : DiskState)
    (l : List Annotation) (aid : String) (m : ChatMessage)
    (hdisk : disk.file = some (serializeAll l)) :
    (∀ a, l.find? (fun x => x.id = aid) = some a →
      append_annotation_chat gen1 gen2 disk aid m true =
        .ok { disk with file := some (serializeAll (replaceFirst (chatStep a m) l).1) } ∧
      (∃ l1 l2, l = l1 ++ a :: l2 ∧ (∀ y ∈ l1, y.id ≠ aid) ∧
        (replaceFirst (chatStep a m) l).1 = l1 ++ chatStep a m :: l2) ∧
      load_annotations gen3
          { disk with file := some (serializeAll (replaceFirst (chatStep a m) l).1) } =
        (replaceFirst (chatStep a m) l).1 ∧
      (chatStep a m).content.chat_messages = some (a.content.chat_messages.getD [] ++ [m]) ∧
      ((chatStep a m).type = .chat_thread ↔ a.type = .highlight ∨ a.type = .chat_thread) ∧
      (a.type = .note → (chatStep a m).type = .note) ∧
      (a.type = .chat_thread → (chatStep a m).type = .chat_thread) ∧
      (a.type = .highlight → (chatStep a m).type = .chat_thread) ∧
      (chatStep a m).id = a.id ∧ (chatStep a m).created_at = a.created_at ∧
      (chatStep a m).target = a.target ∧
      (chatStep a m).content.text = a.content.text ∧
      (chatStep a m).content.color = a.content.color) ∧
    (l.find? (fun x => x.id = aid) = none →
      append_annotation_chat gen1 gen2 disk aid m true = .notFound disk) := by
  constructor
  · intro a hfind
    obtain ⟨haid, l1, l2, hl, hl1⟩ := find?_id_split l aid a hfind
    obtain ⟨hid, hca, htg, htx, hcol, hcm, hiff, hnote, hthread, hhigh⟩ := chatStep_spec a m
    have hx : a.id = (chatStep a m).id := hid.symm
    have h1 : ∀ y ∈ l1, y.id ≠ (chatStep a m).id := by
      intro y hy
      rw [hid, haid]
      exact hl1 y hy
    have hdisk2 : disk.file = some (serializeAll (l1 ++ a :: l2)) := by rw [hdisk, hl]
    have hupd := update_found gen2 disk l1 l2 a (chatStep a m) hdisk2 hx h1
    have hrf : replaceFirst (chatStep a m) l = (l1 ++ chatStep a m :: l2, true) := by
      rw [hl]
      exact replaceFirst_first_match (chatStep a m) a l1 l2 hx h1
    refine ⟨?_, ⟨l1, l2, hl, hl1, by rw [hrf]⟩, ?_, hcm, hiff, hnote, hthread, hhigh,
           hid, hca, htg, htx, hcol⟩
    · simp [append_annotation_chat, load_serializeAll gen1 disk l hdisk, hfind, hupd, hrf]
    · exact load_serializeAll gen3 _ _ rfl
  · intro hnone
    simp [append_annotation_chat, load_serializeAll gen1 disk l hdisk, hnone]

/-- C2 witness: appending a chat message to the stored highlight `ann0`
succeeds and rewrites the file with the mutated record. -/
theorem C2_append_chat_spec_witness :
    append_annotation_chat gen0 gen0 disk0 "a0" msg0 true =
      ChatResult.ok
        { disk0 with file := some (serializeAll (replaceFirst (chatStep ann0 msg0) [ann0]).1) } ∧
    append_annotation_chat gen0 gen0 disk0 "zzz" msg0 true = ChatResult.notFound disk0 :=
  ⟨(((C2_append_chat_spec gen0 gen0 gen0 disk0 [ann0] "a0" msg0 rfl).1) ann0 rfl).1,
   ((C2_append_chat_spec gen0 gen0 gen0 disk0 [ann0] "zzz" msg0 rfl).2) rfl⟩

/-- C5: deleteById on a stored collection with no record of the given id
reports found=false and performs no write for any write outcome (the disk
state is returned unchanged); with a matching record it rewrites the file
with exactly the records whose id differs and reports found=true. -/
theorem C5_delete_spec (gen : Nat → Fresh) (disk : DiskState) (l : List Annotation)
    (aid : String) (writeOk : Bool) (hdisk : disk.file = some (serializeAll l)) :
    ((∀ a ∈ l, a.id ≠ aid) →
      delete_annotation_from_disk gen disk aid writeOk = .ok (false, disk)) ∧
    ((∃ a ∈ l, a.id = aid) →
      delete_annotation_from_disk gen disk aid true =
        .ok (true, { disk with file := some (serializeAll (l.filter (fun a => a.id ≠ aid))) })) :=
  ⟨fun h => delete_notFound gen disk l aid writeOk hdisk h,
   fun h => delete_found gen disk l aid hdisk h⟩

/-- C5 witness: deleting an absent id leaves the stored state untouched;
deleting `"a0"` rewrites with the filtered collection. -/
theorem C5_delete_spec_witness :
    delete_annotation_from_disk gen0 disk0 "zzz" true = .ok (false, disk0) ∧
    delete_annotation_from_disk gen0 disk0 "a0" true =
      .ok (true, { disk0 with file := some (serializeAll ([ann0].filter (fun a => a.id ≠ "a0"))) }) :=
  ⟨(C5_delete_spec gen0 disk0 [ann0] "zzz" true rfl).1 (by decide),
   (C5_delete_spec gen0 disk0 [ann0] "a0" true rfl).2 ⟨ann0, by decide, by decide⟩⟩

/-- C6: updateById with no stored record of the supplied id reports
found=false and performs no write; when the first matching record sits at a
split point, that entire record is replaced by the supplied one while every
other record is unchanged and keeps its position. -/
theorem C6_update_spec (gen : Nat → Fresh) (disk : DiskState) (l l1 l2 : List Annotation)
    (x u : Annotation) (writeOk : Bool) :
    (disk.file = some (serializeAll l) → (∀ a ∈ l, a.id ≠ u.id) →
      update_annotation_in_disk gen disk u writeOk = .ok (false, disk)) ∧
    (disk.file = some (serializeAll (l1 ++ x :: l2)) → x.id = u.id →
      (∀ y ∈ l1, y.id ≠ u.id) →
      update_annotation_in_disk gen disk u true =
        .ok (true, { disk with file := some (serializeAll (l1 ++ u :: l2)) })) :=
  ⟨fun hdisk h => update_notFound gen disk l u writeOk hdisk h,
   fun hdisk hx h1 => update_found gen disk l1 l2 x u hdisk hx h1⟩

/-- C6 witness: replacing the stored record `ann0` by `ann1` (same id)
rewrites the file with the replacement in place; an absent id is a no-op. -/
theorem C6_update_spec_witness :
    update_annotation_in_disk gen0 disk0 ann1 true =
      .ok (true, { disk0 with file := some (serializeAll ([] ++ ann1 :: [])) }) ∧
    update_annotation_in_disk gen0 dupDisk
        { ann1 with id := "zzz" } true = .ok (false, dupDisk) :=
  ⟨(C6_update_spec gen0 disk0 [ann0] [] [] ann0 ann1 true).2 rfl (by decide) (by decide),
   (C6_update_spec gen0 dupDisk [ann0, ann0] [] [] ann0 { ann1 with id := "zzz" } true).1
     rfl (by decide)⟩

/-- C7: append loads the current collection, appends the record at the end
with no duplicate-id check, marks the storage directory created, writes the
whole collection back, and propagates a write error. -/
theorem C7_save_spec (gen : Nat → Fresh) (disk : DiskState) (l : List Annotation)
    (a : Annotation) (hdisk : disk.file = some (serializeAll l)) :
    save_annotation_to_disk gen disk a true =
      .ok { dirExists := true, file := some (serializeAll (l ++ [a])) } ∧
    save_annotation_to_disk gen disk a false = .error "write error" :=
  ⟨save_ok gen disk l a hdisk, rfl⟩

/-- C7 witness: appending `ann0` to a collection already holding `ann0`
(same id, no duplicate check) appends at the end; a failed write raises. -/
theorem C7_save_spec_witness :
    save_annotation_to_disk gen0 disk0 ann0 true =
      .ok { dirExists := true, file := some (serializeAll ([ann0] ++ [ann0])) } ∧
    save_annotation_to_disk gen0 disk0 ann0 false = .error "write error" :=
  C7_save_spec gen0 disk0 [ann0] ann0 rfl

/-- C8: round-trip — append then loadAll yields the old collection with the
given record at the end; in particular the collection contains a record
equal to the appended one in every field. -/
theorem C8_roundtrip (gen gen2 : Nat → Fresh) (disk : DiskState) (l : List Annotation)
    (a : Annotation) (hdisk : disk.file = some (serializeAll l)) :
    ∃ disk2, save_annotation_to_disk gen disk a true = .ok disk2 ∧
      load_annotations gen2 disk2 = l ++ [a] ∧ a ∈ load_annotations gen2 disk2 := by
  refine ⟨_, save_ok gen disk l a hdisk, load_serializeAll gen2 _ _ rfl, ?_⟩
  rw [load_serializeAll gen2 _ _ rfl]
  simp

/-- C8 witness: appending `ann1` to the stored `[ann0]` and re-loading
yields `[ann0, ann1]`, an exact copy of `ann1` included. -/
theorem C8_roundtrip_witness :
    ∃ disk2, save_annotation_to_disk gen0 disk0 ann1 true = .ok disk2 ∧
      load_annotations gen0 disk2 = [ann0] ++ [ann1] ∧ ann1 ∈ load_annotations gen0 disk2 :=
  C8_roundtrip gen0 gen0 disk0 [ann0] ann1 rfl

/-- C9: the persisted order is append order and no operation reorders it —
append places the new record at the end, update replaces the matched record
at its position leaving the two surrounding segments verbatim, and delete
keeps the remaining records in relative order (the filtered list is a
sublist of the original). -/
theorem C9_order_invariant (gen : Nat → Fresh) (disk : DiskState)
    (l l1 l2 : List Annotation) (x u a : Annotation) (aid : String) :
    (disk.file = some (serializeAll l) →
      save_annotation_to_disk gen disk a true =
        .ok { dirExists := true, file := some (serializeAll (l ++ [a])) }) ∧
    (disk.file = some (serializeAll (l1 ++ x :: l2)) → x.id = u.id →
      (∀ y ∈ l1, y.id ≠ u.id) →
      update_annotation_in_disk gen disk u true =
        .ok (true, { disk with file := some (serializeAll (l1 ++ u :: l2)) })) ∧
    (disk.file = some (serializeAll l) → (∃ b ∈ l, b.id = aid) →
      delete_annotation_from_disk gen disk aid true =
        .ok (true, { disk with file := some (serializeAll (l.filter (fun b => b.id ≠ aid))) }) ∧
      (l.filter (fun b => b.id ≠ aid)).Sublist l) :=
  ⟨fun h => save_ok gen disk l a h,
   fun h hx h1 => update_found gen disk l1 l2 x u h hx h1,
   fun h hb => ⟨delete_found gen disk l aid h hb, List.filter_sublist l⟩⟩

/-- C9 witness: the three operations on the concrete one-record store. -/
theorem C9_order_invariant_witness :
    save_annotation_to_disk gen0 disk0 ann0 true =
      .ok { dirExists := true, file := some (serializeAll ([ann0] ++ [ann0])) } ∧
    update_annotation_in_disk gen0 disk0 ann1 true =
      .ok (true, { disk0 with file := some (serializeAll ([] ++ ann1 :: [])) }) ∧
    (delete_annotation_from_disk gen0 disk0 "a0" true =
      .ok (true, { disk0 with file := some (serializeAll ([ann0].filter (fun b => b.id ≠ "a0"))) }) ∧
     ([ann0].filter (fun b => b.id ≠ "a0")).Sublist [ann0]) :=
  have h := C9_order_invariant gen0 disk0 [ann0] [] [] ann0 ann1 ann0 "a0"
  ⟨h.1 rfl, h.2.1 rfl (by decide) (by decide), h.2.2 rfl ⟨ann0, by decide, by decide⟩⟩

/-- C10: with duplicate ids in the stored collection (a first match `x` and
a later duplicate `z`), updateById replaces only the first matching record,
leaving the later segment — duplicates included — verbatim, whereas
deleteById removes every record bearing the id in one call. -/
theorem C10_duplicate_ids (gen : Nat → Fresh) (disk : DiskState)
    (l1 l2 : List Annotation) (x z u : Annotation)
    (hdisk : disk.file = some (serializeAll (l1 ++ x :: l2)))
    (hx : x.id = u.id) (h1 : ∀ y ∈ l1, y.id ≠ u.id)
    (_hz : z ∈ l2) (_hzid : z.id = u.id) :
    update_annotation_in_disk gen disk u true =
      .ok (true, { disk with file := some (serializeAll (l1 ++ u :: l2)) }) ∧
    delete_annotation_from_disk gen disk u.id true =
      .ok (true,
           { disk with
             file := some (serializeAll ((l1 ++ x :: l2).filter (fun a => a.id ≠ u.id))) }) ∧
    ∀ a ∈ (l1 ++ x :: l2).filter (fun a => a.id ≠ u.id), a.id ≠ u.id := by
  refine ⟨update_found gen disk l1 l2 x u hdisk hx h1,
         delete_found gen disk _ u.id hdisk ⟨x, by simp, hx⟩, ?_⟩
  intro a ha
  simpa using List.of_mem_filter ha

/-- C10 witness: a store holding `ann0` twice — update by the shared id
replaces only the first copy, delete removes both. -/
theorem C10_duplicate_ids_witness :
    update_annotation_in_disk gen0 dupDisk ann1 true =
      .ok (true, { dupDisk with file := some (serializeAll ([] ++ ann1 :: [ann0])) }) ∧
    delete_annotation_from_disk gen0 dupDisk ann1.id true =
      .ok (true,
           { dupDisk with
             file := some (serializeAll ([ann0, ann0].filter (fun a => a.id ≠ ann1.id))) }) ∧
    ∀ a ∈ [ann0, ann0].filter (fun a => a.id ≠ ann1.id), a.id ≠ ann1.id :=
  C10_duplicate_ids gen0 dupDisk [] [ann0] ann0 ann0 ann1 rfl (by decide) (by decide)
    (by decide) (by decide)

end Reader3
